import Mathlib

/-!
Shallow embedding of the webhook ingestion pipeline of the r-com backend
(src/backend/src/webhooks/{mod.rs, stripe.rs, square.rs}).

Modelling conventions:
* The database is a `Store`: the `webhook_events` and `orders` tables as
  lists of rows, appended in insertion order.  Row ids generated by the
  database (`RETURNING id`) are modelled as the list length at insert
  time.  Database timestamps (`NOW()`, column defaults) are modelled by
  an explicit `now : Nat` clock argument threaded into the operations;
  the Rust functions read the clock from the database instead of taking
  it as a parameter.
* Database calls (the `sqlx` queries) are modelled as total functions on
  the `Store`; the infrastructure-failure (5xx) paths of the handlers,
  taken only when the database itself errors, are therefore not
  reachable in the model.
* Machine integers (`i64` amounts) are modelled as `Int`.
* Third-party library calls that are not code of this repository are
  parameters of the handler functions: Stripe's
  `Webhook::construct_event` (signature check + parse) is a
  `construct_event` parameter, the HMAC-SHA256/base64 primitive used by
  `verify_square_signature` is a `hmacSha256Base64` parameter, and
  Square's body decoding (`String::from_utf8` + `serde_json::from_str`)
  is a `parse_event` parameter (its two error messages are collapsed
  into the JSON one).
* `std::env::var(K).unwrap_or_else(|_| default)` is modelled as an
  `Option String` environment value resolved with `Option.getD`.
-/

/-- `PaymentProvider` enum from webhooks/mod.rs. -/
inductive PaymentProvider where
  | stripe
  | square
deriving Repr, DecidableEq

/-- The `Display` impl for `PaymentProvider` in webhooks/mod.rs. -/
def PaymentProvider.toStr : PaymentProvider → String
  | .stripe => "stripe"
  | .square => "square"

/-- `OrderStatus` enum from webhooks/mod.rs. -/
inductive OrderStatus where
  | pending
  | completed
  | failed
  | refunded
deriving Repr, DecidableEq

/-- The `Display` impl for `OrderStatus` in webhooks/mod.rs. -/
def OrderStatus.toStr : OrderStatus → String
  | .pending => "pending"
  | .completed => "completed"
  | .failed => "failed"
  | .refunded => "refunded"

/-- Stripe `PaymentIntent` object, restricted to the fields read by
stripe.rs.  `currency` is the lowercase code produced by the crate's
`Display` impl. -/
structure PaymentIntent where
  id : String
  amount : Int
  currency : String
  receipt_email : Option String := none
deriving Repr, DecidableEq

/-- Stripe `Charge` object, restricted to the fields read by stripe.rs.
`payment_intent` holds the id of the expandable payment intent
(`charge.payment_intent.as_ref().map(|pi| pi.id().to_string())`);
`billing_email`/`billing_name` are `charge.billing_details.email/.name`. -/
structure Charge where
  id : String
  amount : Int
  currency : String
  payment_intent : Option String := none
  billing_email : Option String := none
  billing_name : Option String := none
deriving Repr, DecidableEq

/-- Stripe `CheckoutSession` object, restricted to the fields read by
stripe.rs. -/
structure CheckoutSession where
  id : String
  amount_total : Option Int := none
  currency : Option String := none
  customer_email : Option String := none
  payment_intent : Option String := none
deriving Repr, DecidableEq

/-- The stripe crate's `EventType`, with the three variants dispatched in
handle_stripe_webhook kept and every other variant collapsed into
`other` (they all hit the `_` arm), tagged with its `Display` string. -/
inductive StripeEventType where
  | paymentIntentSucceeded
  | chargeSucceeded
  | checkoutSessionCompleted
  | other (tag : String)
deriving Repr, DecidableEq

/-- `event.type_.to_string()` for the modelled event types. -/
def StripeEventType.toStr : StripeEventType → String
  | .paymentIntentSucceeded => "payment_intent.succeeded"
  | .chargeSucceeded => "charge.succeeded"
  | .checkoutSessionCompleted => "checkout.session.completed"
  | .other tag => tag

/-- The stripe crate's `EventObject`, with the three variants matched by
the stripe.rs handlers kept and the rest collapsed into `other`. -/
inductive EventObject where
  | paymentIntent (pi : PaymentIntent)
  | charge (c : Charge)
  | checkoutSession (cs : CheckoutSession)
  | other
deriving Repr, DecidableEq

/-- The stripe crate's `Event`, restricted to the fields read by
stripe.rs (`event.id`, `event.type_`, `event.data.object`). -/
structure StripeEvent where
  id : String
  type_ : StripeEventType
  object : EventObject
deriving Repr, DecidableEq

/-- `SquareAmountMoney` from square.rs. -/
structure SquareAmountMoney where
  amount : Int
  currency : String
deriving Repr, DecidableEq

/-- `SquareCard` from square.rs. -/
structure SquareCard where
  card_brand : String
  last_4 : String
deriving Repr, DecidableEq

/-- `SquareCardDetails` from square.rs. -/
structure SquareCardDetails where
  status : String
  card : Option SquareCard := none
deriving Repr, DecidableEq

/-- `SquarePayment` from square.rs. -/
structure SquarePayment where
  id : String
  status : String
  amount_money : SquareAmountMoney
  source_type : Option String := none
  card_details : Option SquareCardDetails := none
  receipt_number : Option String := none
  receipt_url : Option String := none
  buyer_email_address : Option String := none
deriving Repr, DecidableEq

/-- `SquarePaymentObject` from square.rs. -/
structure SquarePaymentObject where
  payment : Option SquarePayment := none
deriving Repr, DecidableEq

/-- `SquareEventData` from square.rs. -/
structure SquareEventData where
  data_type : String
  id : String
  object : Option SquarePaymentObject := none
deriving Repr, DecidableEq

/-- `SquareWebhookEvent` from square.rs. -/
structure SquareWebhookEvent where
  merchant_id : String
  event_type : String
  event_id : String
  created_at : String
  data : SquareEventData
deriving Repr, DecidableEq

/-- The `payload` column of webhook_events: `serde_json::to_value` of the
verified event is modelled as the typed event itself. -/
inductive Payload where
  | stripe (e : StripeEvent)
  | square (e : SquareWebhookEvent)
deriving Repr, DecidableEq

/-- A row of the `webhook_events` table (struct `WebhookEvent` in
webhooks/mod.rs).  `id` is the database-generated key, `created_at` the
database default timestamp at insertion. -/
structure WebhookEvent where
  id : Nat
  provider : String
  event_type : String
  event_id : String
  payload : Payload
  processed : Bool
  processed_at : Option Nat
  error_message : Option String
  created_at : Nat
deriving Repr, DecidableEq

/-- A row of the `orders` table (struct `Order` in webhooks/mod.rs). -/
structure Order where
  id : Nat
  payment_provider : String
  payment_id : String
  payment_intent_id : Option String
  customer_email : Option String
  customer_name : Option String
  total_amount : Int
  currency : String
  status : String
  webhook_event_id : Option Nat
  created_at : Nat
  updated_at : Nat
deriving Repr, DecidableEq

/-- The database state seen by the webhook pipeline: the two tables it
reads and writes. -/
structure Store where
  webhook_events : List WebhookEvent
  orders : List Order
deriving Repr, DecidableEq

/-- The empty database. -/
def emptyStore : Store := { webhook_events := [], orders := [] }

/-- `CreateWebhookEvent` from webhooks/mod.rs. -/
structure CreateWebhookEvent where
  provider : PaymentProvider
  event_type : String
  event_id : String
  payload : Payload
deriving Repr, DecidableEq

/-- `CreateOrder` from webhooks/mod.rs. -/
structure CreateOrder where
  payment_provider : PaymentProvider
  payment_id : String
  payment_intent_id : Option String
  customer_email : Option String
  customer_name : Option String
  total_amount : Int
  currency : String
  status : OrderStatus
  webhook_event_id : Option Nat
deriving Repr, DecidableEq

/-- `log_webhook_event` (webhooks/mod.rs): INSERT INTO webhook_events
with `processed = FALSE`, returning the generated row id. -/
def log_webhook_event (s : Store) (event : CreateWebhookEvent) (now : Nat) :
    Store × Nat :=
  let rid := s.webhook_events.length
  ({ s with
      webhook_events := s.webhook_events ++
        [{ id := rid
           provider := event.provider.toStr
           event_type := event.event_type
           event_id := event.event_id
           payload := event.payload
           processed := false
           processed_at := none
           error_message := none
           created_at := now }] },
   rid)

/-- `mark_webhook_processed` (webhooks/mod.rs): UPDATE webhook_events SET
`processed = success`, `processed_at = NOW()`, `error_message = $2`
WHERE `id = webhook_id`.  Note the source binds the `success` argument
to the `processed` column. -/
def mark_webhook_processed (s : Store) (webhook_id : Nat) (success : Bool)
    (error_message : Option String) (now : Nat) : Store :=
  { s with
      webhook_events := s.webhook_events.map fun r =>
        if r.id == webhook_id then
          { r with
              processed := success
              processed_at := some now
              error_message := error_message }
        else r }

/-- `create_order` (webhooks/mod.rs): INSERT INTO orders, returning the
generated row id. -/
def create_order (s : Store) (order : CreateOrder) (now : Nat) :
    Store × Nat :=
  let oid := s.orders.length
  ({ s with
      orders := s.orders ++
        [{ id := oid
           payment_provider := order.payment_provider.toStr
           payment_id := order.payment_id
           payment_intent_id := order.payment_intent_id
           customer_email := order.customer_email
           customer_name := order.customer_name
           total_amount := order.total_amount
           currency := order.currency
           status := order.status.toStr
           webhook_event_id := order.webhook_event_id
           created_at := now
           updated_at := now }] },
   oid)

/-- `is_event_processed` (webhooks/mod.rs): SELECT EXISTS(SELECT 1 FROM
webhook_events WHERE event_id = $1).  The check is pure row existence;
it does not look at the `processed` flag. -/
def is_event_processed (s : Store) (event_id : String) : Bool :=
  s.webhook_events.any fun r => r.event_id == event_id

/-- `handle_payment_intent_succeeded` (stripe.rs): creates an Order from
the PaymentIntent with no prior existence check. -/
def handle_payment_intent_succeeded (s : Store) (event : StripeEvent)
    (webhook_id : Nat) (now : Nat) : Except String Store :=
  match event.object with
  | .paymentIntent pi =>
    let order : CreateOrder :=
      { payment_provider := .stripe
        payment_id := pi.id
        payment_intent_id := some pi.id
        customer_email := pi.receipt_email
        customer_name := none
        total_amount := pi.amount
        currency := pi.currency.toUpper
        status := .completed
        webhook_event_id := some webhook_id }
    .ok (create_order s order now).1
  | _ => .error "Expected PaymentIntent object"

/-- `handle_charge_succeeded` (stripe.rs): skips creation when an order
with the charge's `payment_intent_id` already exists (SELECT id FROM
orders WHERE payment_intent_id = $1), otherwise creates an Order. -/
def handle_charge_succeeded (s : Store) (event : StripeEvent)
    (webhook_id : Nat) (now : Nat) : Except String Store :=
  match event.object with
  | .charge c =>
    let payment_intent_str := c.payment_intent
    let existing :=
      match payment_intent_str with
      | some pi_str => s.orders.any fun o => o.payment_intent_id == some pi_str
      | none => false
    if existing then
      .ok s
    else
      let order : CreateOrder :=
        { payment_provider := .stripe
          payment_id := c.id
          payment_intent_id := payment_intent_str
          customer_email := c.billing_email
          customer_name := c.billing_name
          total_amount := c.amount
          currency := c.currency.toUpper
          status := .completed
          webhook_event_id := some webhook_id }
      .ok (create_order s order now).1
  | _ => .error "Expected Charge object"

/-- `handle_checkout_session_completed` (stripe.rs): creates an Order
from the CheckoutSession with no prior existence check; a missing
`amount_total` defaults to 0 and a missing `currency` to "USD". -/
def handle_checkout_session_completed (s : Store) (event : StripeEvent)
    (webhook_id : Nat) (now : Nat) : Except String Store :=
  match event.object with
  | .checkoutSession cs =>
    let order : CreateOrder :=
      { payment_provider := .stripe
        payment_id := cs.id
        payment_intent_id := cs.payment_intent
        customer_email := cs.customer_email
        customer_name := none
        total_amount := cs.amount_total.getD 0
        currency := (cs.currency.map String.toUpper).getD "USD"
        status := .completed
        webhook_event_id := some webhook_id }
    .ok (create_order s order now).1
  | _ => .error "Expected CheckoutSession object"

/-- The `match event.type_` dispatch inside `handle_stripe_webhook`
(stripe.rs): the three handled types, and for every other type an
immediate `mark_webhook_processed(true, None)`. -/
def stripe_dispatch (s : Store) (event : StripeEvent) (webhook_id : Nat)
    (now : Nat) : Except String Store :=
  match event.type_ with
  | .paymentIntentSucceeded => handle_payment_intent_succeeded s event webhook_id now
  | .chargeSucceeded => handle_charge_succeeded s event webhook_id now
  | .checkoutSessionCompleted => handle_checkout_session_completed s event webhook_id now
  | .other _ => .ok (mark_webhook_processed s webhook_id true none now)

/-- The HTTP outcome of a webhook handler.  The handlers' `Ok` responses
are always `(StatusCode::OK, Json(...))` with body
`{received: true}` = `ok 200 false none`,
`{received: true, duplicate: true}` = `ok 200 true none`,
`{received: true, error: e}` = `ok 200 false (some e)`;
`err status message` is the `Err((StatusCode, String))` branch. -/
inductive HandlerResult where
  | ok (status : Nat) (duplicate : Bool) (error_field : Option String)
  | err (status : Nat) (message : String)
deriving Repr, DecidableEq

/-- `handle_stripe_webhook` (stripe.rs).  `construct_event` stands for
the stripe crate's `Webhook::construct_event(body, signature, secret)`;
`env_secret` is the `STRIPE_WEBHOOK_SECRET` environment value, resolved
with the source's `unwrap_or_else` fallback "whsec_test_secret". -/
def handle_stripe_webhook
    (construct_event : String → String → String → Except String StripeEvent)
    (env_secret : Option String) (sig_header : Option String) (body : String)
    (now : Nat) (s : Store) : HandlerResult × Store :=
  match sig_header with
  | none => (.err 400 "Missing stripe-signature header", s)
  | some signature =>
    let webhook_secret := env_secret.getD "whsec_test_secret"
    match construct_event body signature webhook_secret with
    | .error e =>
      (.err 400 ("Webhook signature verification failed: " ++ e), s)
    | .ok event =>
      if is_event_processed s event.id then
        (.ok 200 true none, s)
      else
        let logged := log_webhook_event s
          { provider := .stripe
            event_type := event.type_.toStr
            event_id := event.id
            payload := .stripe event } now
        let s1 := logged.1
        let webhook_id := logged.2
        match stripe_dispatch s1 event webhook_id now with
        | .ok s2 =>
          (.ok 200 false none, mark_webhook_processed s2 webhook_id true none now)
        | .error e =>
          (.ok 200 false (some e),
           mark_webhook_processed s1 webhook_id false (some e) now)

/-- `verify_square_signature` (square.rs): base64(HMAC-SHA256(key,
url ++ body)) compared with the header value by the string `==`
operator.  `hmacSha256Base64 key message` stands for the hmac/sha2/
base64 crate pipeline. -/
def verify_square_signature (hmacSha256Base64 : String → String → String)
    (body : String) (signature : String) (signature_key : String)
    (webhook_url : String) : Bool :=
  let computed_signature := hmacSha256Base64 signature_key (webhook_url ++ body)
  computed_signature == signature

/-- `handle_payment_updated` (square.rs): requires the payment object,
skips without error when `status != "COMPLETED"`, skips when an order
with this `(payment_id, 'square')` already exists, otherwise creates an
Order taking amount and currency verbatim from `amount_money`. -/
def handle_payment_updated (s : Store) (event : SquareWebhookEvent)
    (webhook_id : Nat) (now : Nat) : Except String Store :=
  match event.data.object.bind (fun obj => obj.payment) with
  | none => .error "Missing payment object in event data"
  | some payment =>
    if payment.status ≠ "COMPLETED" then
      .ok s
    else
      let existing := s.orders.any fun o =>
        o.payment_id == payment.id && o.payment_provider == "square"
      if existing then
        .ok s
      else
        let order : CreateOrder :=
          { payment_provider := .square
            payment_id := payment.id
            payment_intent_id := none
            customer_email := payment.buyer_email_address
            customer_name := none
            total_amount := payment.amount_money.amount
            currency := payment.amount_money.currency
            status := .completed
            webhook_event_id := some webhook_id }
        .ok (create_order s order now).1

/-- The `match event.event_type.as_str()` dispatch inside
`handle_square_webhook` (square.rs): "payment.updated" dispatches to
the payment handler; "payment.created" and every other type are marked
processed immediately with no order. -/
def square_dispatch (s : Store) (event : SquareWebhookEvent)
    (webhook_id : Nat) (now : Nat) : Except String Store :=
  if event.event_type = "payment.updated" then
    handle_payment_updated s event webhook_id now
  else if event.event_type = "payment.created" then
    .ok (mark_webhook_processed s webhook_id true none now)
  else
    .ok (mark_webhook_processed s webhook_id true none now)

/-- `handle_square_webhook` (square.rs).  `parse_event` stands for the
UTF-8 decode plus `serde_json::from_str` of the raw body (both 400
paths collapsed into the JSON one); `env_signature_key` and
`env_webhook_url` are the `SQUARE_WEBHOOK_SIGNATURE_KEY` and
`SQUARE_WEBHOOK_URL` environment values with the source's
`unwrap_or_else` fallbacks. -/
def handle_square_webhook (hmacSha256Base64 : String → String → String)
    (parse_event : String → Except String SquareWebhookEvent)
    (env_signature_key : Option String) (env_webhook_url : Option String)
    (sig_header : Option String) (body : String) (now : Nat) (s : Store) :
    HandlerResult × Store :=
  match sig_header with
  | none => (.err 400 "Missing x-square-hmacsha256-signature header", s)
  | some signature =>
    let webhook_signature_key := env_signature_key.getD "your_webhook_signature_key"
    let webhook_url := env_webhook_url.getD "https://your-domain.com/api/webhooks/square"
    if verify_square_signature hmacSha256Base64 body signature
        webhook_signature_key webhook_url then
      match parse_event body with
      | .error e => (.err 400 ("Invalid JSON: " ++ e), s)
      | .ok event =>
        if is_event_processed s event.event_id then
          (.ok 200 true none, s)
        else
          let logged := log_webhook_event s
            { provider := .square
              event_type := event.event_type
              event_id := event.event_id
              payload := .square event } now
          let s1 := logged.1
          let webhook_id := logged.2
          match square_dispatch s1 event webhook_id now with
          | .ok s2 =>
            (.ok 200 false none, mark_webhook_processed s2 webhook_id true none now)
          | .error e =>
            (.ok 200 false (some e),
             mark_webhook_processed s1 webhook_id false (some e) now)
    else
      (.err 401 "Webhook signature verification failed", s)

/-- Well-formedness of the generated webhook row ids: every stored row id
is below the table length.  Holds for every store built from
`emptyStore` by the operations above, which assign the length at insert
time as the id. -/
def fresh_row_ids (s : Store) : Prop :=
  ∀ r ∈ s.webhook_events, r.id < s.webhook_events.length

/-- Comparison-step count of a short-circuiting byte-wise equality test
(the behaviour of the string `==` used in `verify_square_signature`):
it stops at the first differing element. -/
def eqShortCircuitSteps : List Char → List Char → Nat
  | a :: as, b :: bs => 1 + (if a = b then eqShortCircuitSteps as bs else 0)
  | _, _ => 0

/-- Cost model of the `computed_signature == signature` comparison in
`verify_square_signature`: equal lengths are compared byte-wise with
early exit. -/
def squareSignatureCompareSteps (computed provided : String) : Nat :=
  if computed.length = provided.length then
    eqShortCircuitSteps computed.data provided.data
  else 0

/-- A stand-in for `Webhook::construct_event` that accepts every request
and yields a fixed event, for concrete runs. -/
def stripeConstVerifier (ev : StripeEvent) :
    String → String → String → Except String StripeEvent :=
  fun _ _ _ => .ok ev

/-- A stand-in for `Webhook::construct_event` that checks only the
secret it is handed, for concrete runs exercising the secret fallback. -/
def stripeSecretCheckingVerifier (expected : String) (ev : StripeEvent) :
    String → String → String → Except String StripeEvent :=
  fun _ _ secret =>
    if secret == expected then .ok ev else .error "signature mismatch"

/-- A stand-in for `Webhook::construct_event` that routes on the request
body, for concrete multi-request runs. -/
def stripeBodyRoutingVerifier (table : List (String × StripeEvent)) :
    String → String → String → Except String StripeEvent :=
  fun body _ _ =>
    match table.find? (fun p => p.1 == body) with
    | some p => .ok p.2
    | none => .error "unknown body"

/-- A stand-in HMAC primitive returning a fixed tag, for concrete runs. -/
def hmacFixed (tag : String) : String → String → String :=
  fun _ _ => tag

/-- A stand-in for the Square body decode that yields a fixed event. -/
def squareParseConst (ev : SquareWebhookEvent) :
    String → Except String SquareWebhookEvent :=
  fun _ => .ok ev

/-- Concrete Stripe payment intent used in witnesses. -/
def demoPaymentIntent : PaymentIntent :=
  { id := "pi_1", amount := 2500, currency := "usd",
    receipt_email := some "a@b.com" }

/-- Concrete `payment_intent.succeeded` event used in witnesses. -/
def demoPIEvent : StripeEvent :=
  { id := "evt_1", type_ := .paymentIntentSucceeded,
    object := .paymentIntent demoPaymentIntent }

/-- Concrete Stripe charge referencing payment intent pi_1. -/
def demoCharge : Charge :=
  { id := "ch_1", amount := 2500, currency := "usd",
    payment_intent := some "pi_1" }

/-- Concrete `charge.succeeded` event referencing pi_1. -/
def demoChargeEvent : StripeEvent :=
  { id := "evt_ch", type_ := .chargeSucceeded, object := .charge demoCharge }

/-- Concrete checkout session referencing payment intent pi_1. -/
def demoSession : CheckoutSession :=
  { id := "cs_1", amount_total := some 2500, currency := some "usd",
    payment_intent := some "pi_1" }

/-- Concrete `checkout.session.completed` event referencing pi_1. -/
def demoCheckoutEvent : StripeEvent :=
  { id := "evt_cs", type_ := .checkoutSessionCompleted,
    object := .checkoutSession demoSession }

/-- Body-routing verifier delivering the charge event for body b_charge
and the checkout event for body b_checkout. -/
def demoChargeCheckoutVerifier :
    String → String → String → Except String StripeEvent :=
  stripeBodyRoutingVerifier
    [("b_charge", demoChargeEvent), ("b_checkout", demoCheckoutEvent)]

/-- A Stripe event whose type promises a payment intent but whose data
object is not one: its handler returns an application-level error. -/
def demoMismatchedEvent : StripeEvent :=
  { id := "evt_bad", type_ := .paymentIntentSucceeded, object := .other }

/-- Concrete Square payment with a lowercase currency code. -/
def demoSquarePayment : SquarePayment :=
  { id := "sq_pay_1", status := "COMPLETED",
    amount_money := { amount := 1999, currency := "usd" },
    buyer_email_address := some "a@b.com" }

/-- Concrete Square `payment.updated` event for `demoSquarePayment`. -/
def demoSquareEvent : SquareWebhookEvent :=
  { merchant_id := "m_1", event_type := "payment.updated",
    event_id := "evt_sq_1", created_at := "2025-01-01",
    data := { data_type := "payment", id := "d_1",
              object := some { payment := some demoSquarePayment } } }

/-- Concrete Square payment still awaiting completion. -/
def demoSquarePendingPayment : SquarePayment :=
  { demoSquarePayment with status := "PENDING" }

/-- Concrete Square `payment.updated` event with a non-terminal status. -/
def demoSquarePendingEvent : SquareWebhookEvent :=
  { merchant_id := "m_1", event_type := "payment.updated",
    event_id := "evt_sq_2", created_at := "2025-01-01",
    data := { data_type := "payment", id := "d_2",
              object := some { payment := some demoSquarePendingPayment } } }

/-- Concrete Square event whose payload lacks the payment object. -/
def demoSquareNoPaymentEvent : SquareWebhookEvent :=
  { merchant_id := "m_1", event_type := "payment.updated",
    event_id := "evt_sq_3", created_at := "2025-01-01",
    data := { data_type := "payment", id := "d_3", object := none } }

/-- Concrete Square event of an unhandled type. -/
def demoSquareRefundEvent : SquareWebhookEvent :=
  { merchant_id := "m_1", event_type := "refund.created",
    event_id := "evt_sq_4", created_at := "2025-01-01",
    data := { data_type := "refund", id := "d_4", object := none } }

/-- A store holding one unprocessed webhook event row, for concrete runs
of `mark_webhook_processed`. -/
def demoStore : Store :=
  { webhook_events :=
      [{ id := 0, provider := "stripe", event_type := "payment_intent.succeeded",
         event_id := "evt_1", payload := .stripe demoPIEvent,
         processed := false, processed_at := none, error_message := none,
         created_at := 0 }],
    orders := [] }

/-- Checkout session lacking only its amount_total (currency present). -/
def demoNoAmountSession : CheckoutSession :=
  { id := "cs_noamt", currency := some "eur" }

/-- Stripe `checkout.session.completed` event around
`demoNoAmountSession`. -/
def demoNoAmountCheckoutEvent : StripeEvent :=
  { id := "evt_noamt", type_ := .checkoutSessionCompleted,
    object := .checkoutSession demoNoAmountSession }

/-- Checkout session lacking only its currency (amount_total present). -/
def demoNoCurrencySession : CheckoutSession :=
  { id := "cs_nocur", amount_total := some 1250 }

/-- Stripe `checkout.session.completed` event around
`demoNoCurrencySession`. -/
def demoNoCurrencyCheckoutEvent : StripeEvent :=
  { id := "evt_nocur", type_ := .checkoutSessionCompleted,
    object := .checkoutSession demoNoCurrencySession }

/-- A Stripe event of a type outside the three dispatched ones. -/
def demoPingEvent : StripeEvent :=
  { id := "evt_ping", type_ := .other "ping", object := .other }

/-- A store already holding an order for payment intent pi_1, for
concrete runs of the secondary idempotency checks. -/
def demoOrderStore : Store :=
  { webhook_events := [],
    orders :=
      [{ id := 0, payment_provider := "stripe", payment_id := "cs_1",
         payment_intent_id := some "pi_1", customer_email := none,
         customer_name := none, total_amount := 2500, currency := "USD",
         status := "completed", webhook_event_id := some 0,
         created_at := 0, updated_at := 0 }] }

/-- Updating processing flags of rows does not change which event ids
occur in the table. -/
theorem any_event_id_map_update (l : List WebhookEvent) (wid : Nat)
    (b : Bool) (m : Option String) (now : Nat) (eid : String) :
    (l.map fun r =>
        if r.id == wid then
          { r with processed := b, processed_at := some now, error_message := m }
        else r).any (fun r => r.event_id == eid) =
      l.any (fun r => r.event_id == eid) := by
  induction l with
  | nil => rfl
  | cons a l ih =>
    simp only [List.map_cons, List.any_cons, ih]
    congr 1
    split <;> rfl

/-- `mark_webhook_processed` leaves `is_event_processed` unchanged. -/
theorem is_event_processed_mark (s : Store) (wid : Nat) (b : Bool)
    (m : Option String) (now : Nat) (eid : String) :
    is_event_processed (mark_webhook_processed s wid b m now) eid =
      is_event_processed s eid := by
  unfold is_event_processed mark_webhook_processed
  exact any_event_id_map_update s.webhook_events wid b m now eid

/-- `mark_webhook_processed` leaves the orders table unchanged. -/
theorem mark_orders (s : Store) (wid : Nat) (b : Bool) (m : Option String)
    (now : Nat) : (mark_webhook_processed s wid b m now).orders = s.orders :=
  rfl

/-- The event id just logged is seen by `is_event_processed`. -/
theorem is_event_processed_log (s : Store) (e : CreateWebhookEvent)
    (now : Nat) :
    is_event_processed (log_webhook_event s e now).1 e.event_id = true := by
  unfold is_event_processed log_webhook_event
  simp [List.any_append]

/-- `is_event_processed` only reads the webhook_events table. -/
theorem is_event_processed_congr {s s' : Store} (eid : String)
    (h : s'.webhook_events = s.webhook_events) :
    is_event_processed s' eid = is_event_processed s eid := by
  unfold is_event_processed
  rw [h]

/-- The payment-intent handler never touches the webhook_events table. -/
theorem handle_payment_intent_succeeded_webhook_events
    {s s' : Store} {ev : StripeEvent} {wid now : Nat}
    (h : handle_payment_intent_succeeded s ev wid now = .ok s') :
    s'.webhook_events = s.webhook_events := by
  unfold handle_payment_intent_succeeded at h
  cases hobj : ev.object <;> rw [hobj] at h <;>
    first
      | (injection h with h; rw [← h]; rfl)
      | exact Except.noConfusion h

/-- The charge handler never touches the webhook_events table. -/
theorem handle_charge_succeeded_webhook_events
    {s s' : Store} {ev : StripeEvent} {wid now : Nat}
    (h : handle_charge_succeeded s ev wid now = .ok s') :
    s'.webhook_events = s.webhook_events := by
  unfold handle_charge_succeeded at h
  cases hobj : ev.object <;> rw [hobj] at h
  case charge c =>
    simp only at h
    split at h <;> (injection h with h; subst h; rfl)
  all_goals exact Except.noConfusion h

/-- The checkout-session handler never touches the webhook_events table. -/
theorem handle_checkout_session_completed_webhook_events
    {s s' : Store} {ev : StripeEvent} {wid now : Nat}
    (h : handle_checkout_session_completed s ev wid now = .ok s') :
    s'.webhook_events = s.webhook_events := by
  unfold handle_checkout_session_completed at h
  cases hobj : ev.object <;> rw [hobj] at h <;>
    first
      | (injection h with h; rw [← h]; rfl)
      | exact Except.noConfusion h

/-- The Square payment handler never touches the webhook_events table. -/
theorem handle_payment_updated_webhook_events
    {s s' : Store} {ev : SquareWebhookEvent} {wid now : Nat}
    (h : handle_payment_updated s ev wid now = .ok s') :
    s'.webhook_events = s.webhook_events := by
  unfold handle_payment_updated at h
  cases hpay : ev.data.object.bind (fun obj => obj.payment) <;> rw [hpay] at h
  · exact Except.noConfusion h
  · simp only at h
    split at h
    · injection h with h; subst h; rfl
    · split at h <;> (injection h with h; subst h; rfl)

/-- After a successful Stripe dispatch the set of logged event ids is
unchanged. -/
theorem stripe_dispatch_is_event_processed
    {s s2 : Store} {ev : StripeEvent} {wid now : Nat} (eid : String)
    (h : stripe_dispatch s ev wid now = .ok s2) :
    is_event_processed s2 eid = is_event_processed s eid := by
  unfold stripe_dispatch at h
  cases hty : ev.type_ <;> rw [hty] at h
  · exact is_event_processed_congr eid
      (handle_payment_intent_succeeded_webhook_events h)
  · exact is_event_processed_congr eid
      (handle_charge_succeeded_webhook_events h)
  · exact is_event_processed_congr eid
      (handle_checkout_session_completed_webhook_events h)
  · injection h with h
    rw [← h]
    exact is_event_processed_mark s wid true none now eid

/-- After a successful Square dispatch the set of logged event ids is
unchanged. -/
theorem square_dispatch_is_event_processed
    {s s2 : Store} {ev : SquareWebhookEvent} {wid now : Nat} (eid : String)
    (h : square_dispatch s ev wid now = .ok s2) :
    is_event_processed s2 eid = is_event_processed s eid := by
  unfold square_dispatch at h
  split at h
  · exact is_event_processed_congr eid (handle_payment_updated_webhook_events h)
  · split at h <;>
      (injection h with h; rw [← h];
       exact is_event_processed_mark s wid true none now eid)

/-- A flag update targeting an id absent from the list is the identity. -/
theorem map_update_id_of_ne (l : List WebhookEvent) (wid : Nat) (b : Bool)
    (m : Option String) (now : Nat) (h : ∀ r ∈ l, r.id ≠ wid) :
    (l.map fun r =>
        if r.id == wid then
          { r with processed := b, processed_at := some now, error_message := m }
        else r) = l := by
  induction l with
  | nil => rfl
  | cons a t ih =>
    have ha : ¬ ((a.id == wid) = true) := by
      simp [beq_eq_false_iff_ne.mpr (h a (List.mem_cons_self a t))]
    rw [List.map_cons, if_neg ha,
      ih (fun r hr => h r (List.mem_cons_of_mem a hr))]

/-- Marking the freshly appended row updates exactly that row. -/
theorem mark_append_row (s : Store) (row : WebhookEvent) (wid : Nat)
    (b : Bool) (m : Option String) (now : Nat) (hwid : row.id = wid)
    (h : ∀ r ∈ s.webhook_events, r.id ≠ wid) :
    mark_webhook_processed
        { s with webhook_events := s.webhook_events ++ [row] } wid b m now
      = { s with webhook_events := s.webhook_events ++
          [{ row with
              processed := b
              processed_at := some now
              error_message := m }] } := by
  subst hwid
  unfold mark_webhook_processed
  simp only [List.map_append, List.map_cons, List.map_nil]
  rw [map_update_id_of_ne _ _ _ _ _ h]
  simp

/-- Stored ids of a well-formed store differ from the next generated id. -/
theorem fresh_row_ids_ne (s : Store) (hf : fresh_row_ids s) :
    ∀ r ∈ s.webhook_events, r.id ≠ s.webhook_events.length :=
  fun r hr => Nat.ne_of_lt (hf r hr)

/-- C2 counterexample: `mark_webhook_processed` with `success = false` on
a store holding one row with the matching id leaves that row with
`processed = false`, not `processed = true` as claimed: the source binds
the success flag (not the constant TRUE) to the `processed` column. -/
theorem c2_counterexample_mark_failure_leaves_unprocessed :
    ((mark_webhook_processed demoStore 0 false (some "boom") 5).webhook_events.map
      (fun r => r.processed)) = [false] := rfl

/-- C2 amended: for every row of the updated table whose id is the
targeted one, `mark_webhook_processed(_, success, msg)` leaves
`processed = success` (true exactly on success), `processed_at` set to
the current time, and the error message stored. -/
theorem c2_amended_mark_processed_fields (s : Store) (wid : Nat)
    (succ : Bool) (msg : Option String) (now : Nat) (r : WebhookEvent)
    (hr : r ∈ (mark_webhook_processed s wid succ msg now).webhook_events)
    (hid : r.id = wid) :
    r.processed = succ ∧ r.processed_at = some now ∧
      r.error_message = msg := by
  unfold mark_webhook_processed at hr
  simp only [List.mem_map] at hr
  obtain ⟨a, ha, hfa⟩ := hr
  cases hcase : (a.id == wid) with
  | false =>
    rw [hcase] at hfa
    simp only [Bool.false_eq_true, if_false] at hfa
    rw [← hfa] at hid
    exact absurd hid (by simpa using hcase)
  | true =>
    rw [hcase] at hfa
    simp only [if_true] at hfa
    rw [← hfa]
    exact ⟨rfl, rfl, rfl⟩

/-- C2 witness: the amended theorem applied to the one-row demo store
with `success = false`, error message "boom", at time 5. -/
theorem c2_amended_witness :
    ({ id := 0, provider := "stripe",
       event_type := "payment_intent.succeeded", event_id := "evt_1",
       payload := .stripe demoPIEvent, processed := false,
       processed_at := some 5, error_message := some "boom",
       created_at := 0 } : WebhookEvent).processed = false ∧
    ({ id := 0, provider := "stripe",
       event_type := "payment_intent.succeeded", event_id := "evt_1",
       payload := .stripe demoPIEvent, processed := false,
       processed_at := some 5, error_message := some "boom",
       created_at := 0 } : WebhookEvent).processed_at = some 5 ∧
    ({ id := 0, provider := "stripe",
       event_type := "payment_intent.succeeded", event_id := "evt_1",
       payload := .stripe demoPIEvent, processed := false,
       processed_at := some 5, error_message := some "boom",
       created_at := 0 } : WebhookEvent).error_message = some "boom" :=
  c2_amended_mark_processed_fields demoStore 0 false (some "boom") 5 _
    (by decide) rfl

/-- C5 amended: a missing signing secret is handled per request by
substituting the hard-coded fallback value: with the environment
variable absent each handler behaves exactly as if the fallback secret
and URL were configured.  There is no fatal startup condition. -/
theorem c5_amended_env_fallback :
    (∀ (ce : String → String → String → Except String StripeEvent)
       (sig : Option String) (body : String) (now : Nat) (s : Store),
       handle_stripe_webhook ce none sig body now s =
         handle_stripe_webhook ce (some "whsec_test_secret") sig body now s) ∧
    (∀ (hm : String → String → String)
       (pe : String → Except String SquareWebhookEvent)
       (sig : Option String) (body : String) (now : Nat) (s : Store),
       handle_square_webhook hm pe none none sig body now s =
         handle_square_webhook hm pe (some "your_webhook_signature_key")
           (some "https://your-domain.com/api/webhooks/square")
           sig body now s) :=
  ⟨fun _ sig _ _ _ => by cases sig <;> rfl,
   fun _ _ sig _ _ _ => by cases sig <;> rfl⟩

/-- C5 counterexample: with `STRIPE_WEBHOOK_SECRET` absent, a request
whose signature verifies against the substitute secret
"whsec_test_secret" is fully verified and processed: the response is a
success and the event is logged and marked processed; absence of the
secret is a per-request condition, not a fatal one. -/
theorem c5_counterexample_request_processed_without_secret :
    (handle_stripe_webhook
        (stripeSecretCheckingVerifier "whsec_test_secret" demoPingEvent)
        none (some "t=1,v1=sig") "payload" 3 emptyStore).1
      = .ok 200 false none ∧
    ((handle_stripe_webhook
        (stripeSecretCheckingVerifier "whsec_test_secret" demoPingEvent)
        none (some "t=1,v1=sig") "payload" 3 emptyStore).2.webhook_events.map
      (fun r => (r.event_id, r.processed))) = [("evt_ping", true)] :=
  ⟨rfl, rfl⟩

/-- C9: the signature comparison of `verify_square_signature` is the
short-circuiting string equality operator, whose byte-comparison count
depends on the position of the first differing byte: against the same
computed tag, a header differing at the first byte costs 1 comparison
and one differing at the last byte costs 4, so the comparison is not
constant-time, contradicting the source's own comment. -/
theorem c9_signature_compare_not_constant_time :
    squareSignatureCompareSteps "aaaa" "baaa" = 1 ∧
    squareSignatureCompareSteps "aaaa" "aaab" = 4 ∧
    squareSignatureCompareSteps "aaaa" "baaa" ≠
      squareSignatureCompareSteps "aaaa" "aaab" := by
  refine ⟨by decide, by decide, by decide⟩

/-- C10: independently of each other, a verified
`checkout.session.completed` whose session lacks `amount_total` still
creates an Order with `total_amount = 0` (whatever the currency field
holds), and one whose session lacks `currency` still creates an Order
with currency "USD" (whatever the amount field holds); absence of
either field is not treated as an error. -/
theorem c10_checkout_missing_field_defaults :
    (∀ (s : Store) (ev : StripeEvent) (cs : CheckoutSession)
       (wid now : Nat),
       ev.object = .checkoutSession cs →
       cs.amount_total = none →
       handle_checkout_session_completed s ev wid now =
         .ok { s with orders := s.orders ++
           [{ id := s.orders.length
              payment_provider := "stripe"
              payment_id := cs.id
              payment_intent_id := cs.payment_intent
              customer_email := cs.customer_email
              customer_name := none
              total_amount := 0
              currency := (cs.currency.map String.toUpper).getD "USD"
              status := "completed"
              webhook_event_id := some wid
              created_at := now
              updated_at := now }] }) ∧
    (∀ (s : Store) (ev : StripeEvent) (cs : CheckoutSession)
       (wid now : Nat),
       ev.object = .checkoutSession cs →
       cs.currency = none →
       handle_checkout_session_completed s ev wid now =
         .ok { s with orders := s.orders ++
           [{ id := s.orders.length
              payment_provider := "stripe"
              payment_id := cs.id
              payment_intent_id := cs.payment_intent
              customer_email := cs.customer_email
              customer_name := none
              total_amount := cs.amount_total.getD 0
              currency := "USD"
              status := "completed"
              webhook_event_id := some wid
              created_at := now
              updated_at := now }] }) := by
  constructor
  · intro s ev cs wid now hobj hamt
    unfold handle_checkout_session_completed
    rw [hobj]
    simp [hamt, create_order, PaymentProvider.toStr, OrderStatus.toStr]
  · intro s ev cs wid now hobj hcur
    unfold handle_checkout_session_completed
    rw [hobj]
    simp [hcur, create_order, PaymentProvider.toStr, OrderStatus.toStr]

/-- C10 witness: both conjuncts at mixed-case sessions: one lacking only
its amount_total (currency "eur" present) and one lacking only its
currency (amount 1250 present). -/
theorem c10_witness :
    (handle_checkout_session_completed emptyStore demoNoAmountCheckoutEvent
        3 7 =
      .ok { emptyStore with orders :=
        [{ id := 0, payment_provider := "stripe", payment_id := "cs_noamt",
           payment_intent_id := none, customer_email := none,
           customer_name := none, total_amount := 0,
           currency := ((some "eur").map String.toUpper).getD "USD",
           status := "completed", webhook_event_id := some 3,
           created_at := 7, updated_at := 7 }] }) ∧
    (handle_checkout_session_completed emptyStore demoNoCurrencyCheckoutEvent
        4 8 =
      .ok { emptyStore with orders :=
        [{ id := 0, payment_provider := "stripe", payment_id := "cs_nocur",
           payment_intent_id := none, customer_email := none,
           customer_name := none, total_amount := 1250, currency := "USD",
           status := "completed", webhook_event_id := some 4,
           created_at := 8, updated_at := 8 }] }) :=
  ⟨c10_checkout_missing_field_defaults.1 emptyStore
      demoNoAmountCheckoutEvent demoNoAmountSession 3 7 rfl rfl,
   c10_checkout_missing_field_defaults.2 emptyStore
      demoNoCurrencyCheckoutEvent demoNoCurrencySession 4 8 rfl rfl⟩

/-- C7 amended: every order-creating path stores the payload's
smallest-unit integer amount verbatim; the three Stripe paths store the
currency upper-cased, but the Square path stores the payload currency
string unchanged (no uppercase conversion). -/
theorem c7_amended_amount_currency :
    (∀ (s : Store) (ev : StripeEvent) (pi : PaymentIntent) (wid now : Nat),
       ev.object = .paymentIntent pi →
       handle_payment_intent_succeeded s ev wid now =
         .ok { s with orders := s.orders ++
           [{ id := s.orders.length
              payment_provider := "stripe"
              payment_id := pi.id
              payment_intent_id := some pi.id
              customer_email := pi.receipt_email
              customer_name := none
              total_amount := pi.amount
              currency := pi.currency.toUpper
              status := "completed"
              webhook_event_id := some wid
              created_at := now
              updated_at := now }] }) ∧
    (∀ (s : Store) (ev : StripeEvent) (c : Charge) (wid now : Nat),
       ev.object = .charge c →
       (match c.payment_intent with
        | some pi_str => s.orders.any fun o => o.payment_intent_id == some pi_str
        | none => false) = false →
       handle_charge_succeeded s ev wid now =
         .ok { s with orders := s.orders ++
           [{ id := s.orders.length
              payment_provider := "stripe"
              payment_id := c.id
              payment_intent_id := c.payment_intent
              customer_email := c.billing_email
              customer_name := c.billing_name
              total_amount := c.amount
              currency := c.currency.toUpper
              status := "completed"
              webhook_event_id := some wid
              created_at := now
              updated_at := now }] }) ∧
    (∀ (s : Store) (ev : StripeEvent) (cs : CheckoutSession) (a : Int)
       (cur : String) (wid now : Nat),
       ev.object = .checkoutSession cs →
       cs.amount_total = some a →
       cs.currency = some cur →
       handle_checkout_session_completed s ev wid now =
         .ok { s with orders := s.orders ++
           [{ id := s.orders.length
              payment_provider := "stripe"
              payment_id := cs.id
              payment_intent_id := cs.payment_intent
              customer_email := cs.customer_email
              customer_name := none
              total_amount := a
              currency := cur.toUpper
              status := "completed"
              webhook_event_id := some wid
              created_at := now
              updated_at := now }] }) ∧
    (∀ (s : Store) (ev : SquareWebhookEvent) (p : SquarePayment)
       (wid now : Nat),
       ev.data.object.bind (fun obj => obj.payment) = some p →
       p.status = "COMPLETED" →
       (s.orders.any fun o =>
         o.payment_id == p.id && o.payment_provider == "square") = false →
       handle_payment_updated s ev wid now =
         .ok { s with orders := s.orders ++
           [{ id := s.orders.length
              payment_provider := "square"
              payment_id := p.id
              payment_intent_id := none
              customer_email := p.buyer_email_address
              customer_name := none
              total_amount := p.amount_money.amount
              currency := p.amount_money.currency
              status := "completed"
              webhook_event_id := some wid
              created_at := now
              updated_at := now }] }) := by
  refine ⟨?_, ?_, ?_, ?_⟩
  · intro s ev pi wid now hobj
    unfold handle_payment_intent_succeeded
    rw [hobj]
    simp [create_order, PaymentProvider.toStr, OrderStatus.toStr]
  · intro s ev c wid now hobj hex
    unfold handle_charge_succeeded
    rw [hobj]
    simp only [hex]
    simp [create_order, PaymentProvider.toStr, OrderStatus.toStr]
  · intro s ev cs a cur wid now hobj hamt hcur
    unfold handle_checkout_session_completed
    rw [hobj]
    simp [hamt, hcur, create_order, PaymentProvider.toStr, OrderStatus.toStr]
  · intro s ev p wid now hpay hst hex
    unfold handle_payment_updated
    rw [hpay]
    simp only [hst]
    simp [hex, create_order, PaymentProvider.toStr, OrderStatus.toStr]

/-- C7 counterexample: a Square payment whose payload currency is the
lowercase "usd" is stored with currency "usd", not the claimed
upper-cased "USD" (amount 1999 is stored verbatim). -/
theorem c7_counterexample_square_currency_not_uppercased :
    (handle_payment_updated emptyStore demoSquareEvent 4 9).map
        (fun st => st.orders.map (fun o => (o.total_amount, o.currency)))
      = .ok [(1999, "usd")] ∧ ("usd" : String) ≠ "USD" :=
  ⟨rfl, by decide⟩

/-- C7 witness: the Square conjunct of the amended theorem applied to
the demo payment (amount 1999, currency "usd"). -/
theorem c7_amended_witness :
    handle_payment_updated emptyStore demoSquareEvent 4 9 =
      .ok { emptyStore with orders :=
        [{ id := 0, payment_provider := "square", payment_id := "sq_pay_1",
           payment_intent_id := none, customer_email := some "a@b.com",
           customer_name := none, total_amount := 1999, currency := "usd",
           status := "completed", webhook_event_id := some 4,
           created_at := 9, updated_at := 9 }] } :=
  c7_amended_amount_currency.2.2.2 emptyStore demoSquareEvent
    demoSquarePayment 4 9 rfl rfl rfl

/-- C1 counterexample: processing a verified `charge.succeeded` and then
a verified `checkout.session.completed` that reference the same
payment intent pi_1 through the full Stripe pipeline produces TWO
orders with `payment_intent_id = pi_1`: the checkout-session handler
performs no idempotency check at all. -/
theorem c1_counterexample_charge_then_checkout_two_orders :
    ((handle_stripe_webhook demoChargeCheckoutVerifier none (some "sig")
        "b_checkout" 1
        (handle_stripe_webhook demoChargeCheckoutVerifier none (some "sig")
          "b_charge" 0 emptyStore).2).2.orders.filter
      (fun o => o.payment_intent_id == some "pi_1")).length = 2 := by
  decide

/-- C1 amended: only two of the four creation paths perform a secondary
idempotency check: `charge.succeeded` skips when an order with the
charge's payment_intent_id exists, and Square `payment.updated` skips
when an order with the same `(payment_id, square)` exists; the
`payment_intent.succeeded` and `checkout.session.completed` handlers
create orders unconditionally.  Consequently processing
checkout-then-charge on the same payment intent yields exactly one
Order, while charge-then-checkout yields two. -/
theorem c1_amended_secondary_dedup :
    (∀ (s : Store) (ev : StripeEvent) (c : Charge) (wid now : Nat)
       (pi_str : String),
       ev.object = .charge c →
       c.payment_intent = some pi_str →
       (s.orders.any fun o => o.payment_intent_id == some pi_str) = true →
       handle_charge_succeeded s ev wid now = .ok s) ∧
    (∀ (s : Store) (ev : SquareWebhookEvent) (p : SquarePayment)
       (wid now : Nat),
       ev.data.object.bind (fun obj => obj.payment) = some p →
       p.status = "COMPLETED" →
       (s.orders.any fun o =>
         o.payment_id == p.id && o.payment_provider == "square") = true →
       handle_payment_updated s ev wid now = .ok s) ∧
    ((handle_stripe_webhook demoChargeCheckoutVerifier none (some "sig")
        "b_charge" 1
        (handle_stripe_webhook demoChargeCheckoutVerifier none (some "sig")
          "b_checkout" 0 emptyStore).2).2.orders.filter
      (fun o => o.payment_intent_id == some "pi_1")).length = 1 := by
  refine ⟨?_, ?_, by decide⟩
  · intro s ev c wid now pi_str hobj hpi hex
    unfold handle_charge_succeeded
    rw [hobj]
    simp only [hpi, hex]
    simp
  · intro s ev p wid now hpay hst hex
    unfold handle_payment_updated
    rw [hpay]
    simp only [hst, hex]
    simp

/-- C1 witness: the charge conjunct of the amended theorem applied to a
store already holding an order for pi_1: the charge handler skips
creation. -/
theorem c1_amended_witness :
    handle_charge_succeeded demoOrderStore demoChargeEvent 9 9 =
      .ok demoOrderStore :=
  c1_amended_secondary_dedup.1 demoOrderStore demoChargeEvent demoCharge
    9 9 "pi_1" rfl rfl (by decide)

/-- C4: a missing signature header, a failed signature verification, or
a malformed body yields a 400/401 response and leaves the store
untouched: no WebhookEvent row and no Order row is created. -/
theorem c4_verification_errors_no_state_change :
    (∀ (ce : String → String → String → Except String StripeEvent)
       (env : Option String) (body : String) (now : Nat) (s : Store),
       handle_stripe_webhook ce env none body now s =
         (.err 400 "Missing stripe-signature header", s)) ∧
    (∀ (ce : String → String → String → Except String StripeEvent)
       (env : Option String) (sig body e : String) (now : Nat) (s : Store),
       ce body sig (env.getD "whsec_test_secret") = .error e →
       handle_stripe_webhook ce env (some sig) body now s =
         (.err 400 ("Webhook signature verification failed: " ++ e), s)) ∧
    (∀ (hm : String → String → String)
       (pe : String → Except String SquareWebhookEvent)
       (envk envu : Option String) (body : String) (now : Nat) (s : Store),
       handle_square_webhook hm pe envk envu none body now s =
         (.err 400 "Missing x-square-hmacsha256-signature header", s)) ∧
    (∀ (hm : String → String → String)
       (pe : String → Except String SquareWebhookEvent)
       (envk envu : Option String) (sig body : String) (now : Nat)
       (s : Store),
       verify_square_signature hm body sig
         (envk.getD "your_webhook_signature_key")
         (envu.getD "https://your-domain.com/api/webhooks/square") = false →
       handle_square_webhook hm pe envk envu (some sig) body now s =
         (.err 401 "Webhook signature verification failed", s)) ∧
    (∀ (hm : String → String → String)
       (pe : String → Except String SquareWebhookEvent)
       (envk envu : Option String) (sig body e : String) (now : Nat)
       (s : Store),
       verify_square_signature hm body sig
         (envk.getD "your_webhook_signature_key")
         (envu.getD "https://your-domain.com/api/webhooks/square") = true →
       pe body = .error e →
       handle_square_webhook hm pe envk envu (some sig) body now s =
         (.err 400 ("Invalid JSON: " ++ e), s)) := by
  refine ⟨fun _ _ _ _ _ => rfl, ?_, fun _ _ _ _ _ _ _ => rfl, ?_, ?_⟩
  · intro ce env sig body e now s h
    unfold handle_stripe_webhook
    dsimp only
    rw [h]
  · intro hm pe envk envu sig body now s h
    unfold handle_square_webhook
    dsimp only
    rw [h]
    simp
  · intro hm pe envk envu sig body e now s hv hp
    unfold handle_square_webhook
    dsimp only
    rw [hv, hp]
    simp

/-- C4 witness: a Stripe request whose signature check fails, and a
Square request whose HMAC does not match the header, both rejected with
their exact statuses and an unchanged empty store. -/
theorem c4_witness :
    handle_stripe_webhook (stripeSecretCheckingVerifier "whsec_prod" demoPIEvent)
        none (some "sig") "body" 0 emptyStore =
      (.err 400 "Webhook signature verification failed: signature mismatch",
       emptyStore) ∧
    handle_square_webhook (hmacFixed "computed")
        (squareParseConst demoSquareEvent) none none (some "bad") "body" 0
        emptyStore =
      (.err 401 "Webhook signature verification failed", emptyStore) :=
  ⟨c4_verification_errors_no_state_change.2.1
      (stripeSecretCheckingVerifier "whsec_prod" demoPIEvent) none "sig"
      "body" "signature mismatch" 0 emptyStore rfl,
   c4_verification_errors_no_state_change.2.2.2.1 (hmacFixed "computed")
      (squareParseConst demoSquareEvent) none none "bad" "body" 0 emptyStore
      rfl⟩

/-- C8: when the dispatched handler of a verified, freshly logged event
returns an application-level error, the pipeline records the error via
`mark_webhook_processed` with `success = false` and the descriptive
message, and still responds 200 with received plus an error field;
the failure is never surfaced as a non-200 status. -/
theorem c8_application_errors_still_200 :
    (∀ (ce : String → String → String → Except String StripeEvent)
       (env : Option String) (sig body : String) (now : Nat) (s s1 : Store)
       (ev : StripeEvent) (wid : Nat) (e : String),
       ce body sig (env.getD "whsec_test_secret") = .ok ev →
       is_event_processed s ev.id = false →
       log_webhook_event s
         { provider := .stripe, event_type := ev.type_.toStr,
           event_id := ev.id, payload := .stripe ev } now = (s1, wid) →
       stripe_dispatch s1 ev wid now = .error e →
       handle_stripe_webhook ce env (some sig) body now s =
         (.ok 200 false (some e),
          mark_webhook_processed s1 wid false (some e) now)) ∧
    (∀ (hm : String → String → String)
       (pe : String → Except String SquareWebhookEvent)
       (envk envu : Option String) (sig body : String) (now : Nat)
       (s s1 : Store) (ev : SquareWebhookEvent) (wid : Nat) (e : String),
       verify_square_signature hm body sig
         (envk.getD "your_webhook_signature_key")
         (envu.getD "https://your-domain.com/api/webhooks/square") = true →
       pe body = .ok ev →
       is_event_processed s ev.event_id = false →
       log_webhook_event s
         { provider := .square, event_type := ev.event_type,
           event_id := ev.event_id, payload := .square ev } now = (s1, wid) →
       square_dispatch s1 ev wid now = .error e →
       handle_square_webhook hm pe envk envu (some sig) body now s =
         (.ok 200 false (some e),
          mark_webhook_processed s1 wid false (some e) now)) := by
  constructor
  · intro ce env sig body now s s1 ev wid e hce hnew hlog hdisp
    unfold handle_stripe_webhook
    dsimp only
    rw [hce]
    simp [hnew, hlog, hdisp]
  · intro hm pe envk envu sig body now s s1 ev wid e hv hp hnew hlog hdisp
    unfold handle_square_webhook
    dsimp only
    rw [hv, hp]
    simp [hnew, hlog, hdisp]

/-- C8 witness: a verified `payment_intent.succeeded` event whose data
object is not a PaymentIntent is marked failed with the descriptive
message and still answered 200. -/
theorem c8_witness :
    handle_stripe_webhook (stripeConstVerifier demoMismatchedEvent) none
        (some "sig") "body" 7 emptyStore =
      (.ok 200 false (some "Expected PaymentIntent object"),
       mark_webhook_processed
         (log_webhook_event emptyStore
           { provider := .stripe,
             event_type := demoMismatchedEvent.type_.toStr,
             event_id := demoMismatchedEvent.id,
             payload := .stripe demoMismatchedEvent } 7).1
         (log_webhook_event emptyStore
           { provider := .stripe,
             event_type := demoMismatchedEvent.type_.toStr,
             event_id := demoMismatchedEvent.id,
             payload := .stripe demoMismatchedEvent } 7).2
         false (some "Expected PaymentIntent object") 7) :=
  c8_application_errors_still_200.1 (stripeConstVerifier demoMismatchedEvent)
    none "sig" "body" 7 emptyStore _ demoMismatchedEvent _
    "Expected PaymentIntent object" rfl rfl rfl rfl

/-- An event type outside the three dispatched ones is marked processed
with no error by the Stripe dispatch. -/
theorem stripe_dispatch_other {s : Store} {ev : StripeEvent}
    {wid now : Nat} {t : String} (hty : ev.type_ = .other t) :
    stripe_dispatch s ev wid now =
      .ok (mark_webhook_processed s wid true none now) := by
  unfold stripe_dispatch
  rw [hty]

/-- The Square dispatch routes "payment.updated" to the payment handler. -/
theorem square_dispatch_on_payment_updated {s : Store}
    {ev : SquareWebhookEvent} {wid now : Nat}
    (hty : ev.event_type = "payment.updated") :
    square_dispatch s ev wid now = handle_payment_updated s ev wid now := by
  unfold square_dispatch
  rw [hty]
  simp

/-- Event types other than "payment.updated" and "payment.created" are
marked processed with no error by the Square dispatch. -/
theorem square_dispatch_other {s : Store} {ev : SquareWebhookEvent}
    {wid now : Nat} (h1 : ev.event_type ≠ "payment.updated")
    (h2 : ev.event_type ≠ "payment.created") :
    square_dispatch s ev wid now =
      .ok (mark_webhook_processed s wid true none now) := by
  unfold square_dispatch
  rw [if_neg h1, if_neg h2]

/-- A payment whose status is not COMPLETED is skipped without error and
without any write. -/
theorem handle_payment_updated_skip_status {s : Store}
    {ev : SquareWebhookEvent} {wid now : Nat} {p : SquarePayment}
    (hpay : ev.data.object.bind (fun obj => obj.payment) = some p)
    (hst : p.status ≠ "COMPLETED") :
    handle_payment_updated s ev wid now = .ok s := by
  unfold handle_payment_updated
  rw [hpay]
  simp [hst]

/-- Marking the logged row once yields the explicit appended row. -/
theorem mark_log (s : Store) (e : CreateWebhookEvent) (now : Nat)
    (b : Bool) (m : Option String) (now2 : Nat) (hf : fresh_row_ids s) :
    mark_webhook_processed (log_webhook_event s e now).1
        (log_webhook_event s e now).2 b m now2
      = { s with webhook_events := s.webhook_events ++
          [{ id := s.webhook_events.length
             provider := e.provider.toStr
             event_type := e.event_type
             event_id := e.event_id
             payload := e.payload
             processed := b
             processed_at := some now2
             error_message := m
             created_at := now }] } :=
  mark_append_row s
    { id := s.webhook_events.length
      provider := e.provider.toStr
      event_type := e.event_type
      event_id := e.event_id
      payload := e.payload
      processed := false
      processed_at := none
      error_message := none
      created_at := now }
    s.webhook_events.length b m now2 rfl (fresh_row_ids_ne s hf)

/-- Marking the logged row a second time with the same arguments is
idempotent. -/
theorem mark_log_twice (s : Store) (e : CreateWebhookEvent)
    (now now2 : Nat) (hf : fresh_row_ids s) :
    mark_webhook_processed
        (mark_webhook_processed (log_webhook_event s e now).1
          (log_webhook_event s e now).2 true none now2)
        (log_webhook_event s e now).2 true none now2
      = mark_webhook_processed (log_webhook_event s e now).1
          (log_webhook_event s e now).2 true none now2 := by
  rw [mark_log s e now true none now2 hf]
  exact mark_append_row s
    { id := s.webhook_events.length
      provider := e.provider.toStr
      event_type := e.event_type
      event_id := e.event_id
      payload := e.payload
      processed := true
      processed_at := some now2
      error_message := none
      created_at := now }
    s.webhook_events.length true none now2 rfl (fresh_row_ids_ne s hf)

/-- C6: verified events that are a Square payment.updated with
non-COMPLETED status, or of an unhandled (provider, event_type), create
no Order: the event is logged, marked processed with no error message,
and the response is a plain 200 success with no error field. -/
theorem c6_skipped_events_logged_processed_200 :
    (∀ (ce : String → String → String → Except String StripeEvent)
       (env : Option String) (sig body : String) (now : Nat) (s : Store)
       (ev : StripeEvent) (t : String),
       ce body sig (env.getD "whsec_test_secret") = .ok ev →
       ev.type_ = .other t →
       is_event_processed s ev.id = false →
       fresh_row_ids s →
       handle_stripe_webhook ce env (some sig) body now s =
         (.ok 200 false none,
          { s with webhook_events := s.webhook_events ++
             [{ id := s.webhook_events.length
                provider := "stripe"
                event_type := t
                event_id := ev.id
                payload := .stripe ev
                processed := true
                processed_at := some now
                error_message := none
                created_at := now }] })) ∧
    (∀ (hm : String → String → String)
       (pe : String → Except String SquareWebhookEvent)
       (envk envu : Option String) (sig body : String) (now : Nat)
       (s : Store) (ev : SquareWebhookEvent) (p : SquarePayment),
       verify_square_signature hm body sig
         (envk.getD "your_webhook_signature_key")
         (envu.getD "https://your-domain.com/api/webhooks/square") = true →
       pe body = .ok ev →
       ev.event_type = "payment.updated" →
       ev.data.object.bind (fun obj => obj.payment) = some p →
       p.status ≠ "COMPLETED" →
       is_event_processed s ev.event_id = false →
       fresh_row_ids s →
       handle_square_webhook hm pe envk envu (some sig) body now s =
         (.ok 200 false none,
          { s with webhook_events := s.webhook_events ++
             [{ id := s.webhook_events.length
                provider := "square"
                event_type := ev.event_type
                event_id := ev.event_id
                payload := .square ev
                processed := true
                processed_at := some now
                error_message := none
                created_at := now }] })) ∧
    (∀ (hm : String → String → String)
       (pe : String → Except String SquareWebhookEvent)
       (envk envu : Option String) (sig body : String) (now : Nat)
       (s : Store) (ev : SquareWebhookEvent),
       verify_square_signature hm body sig
         (envk.getD "your_webhook_signature_key")
         (envu.getD "https://your-domain.com/api/webhooks/square") = true →
       pe body = .ok ev →
       ev.event_type ≠ "payment.updated" →
       ev.event_type ≠ "payment.created" →
       is_event_processed s ev.event_id = false →
       fresh_row_ids s →
       handle_square_webhook hm pe envk envu (some sig) body now s =
         (.ok 200 false none,
          { s with webhook_events := s.webhook_events ++
             [{ id := s.webhook_events.length
                provider := "square"
                event_type := ev.event_type
                event_id := ev.event_id
                payload := .square ev
                processed := true
                processed_at := some now
                error_message := none
                created_at := now }] })) := by
  refine ⟨?_, ?_, ?_⟩
  · intro ce env sig body now s ev t hce hty hnew hf
    unfold handle_stripe_webhook
    dsimp only
    rw [hce]
    dsimp only
    rw [hnew, if_neg Bool.false_ne_true, stripe_dispatch_other hty]
    dsimp only
    rw [mark_log_twice s
      { provider := .stripe, event_type := ev.type_.toStr,
        event_id := ev.id, payload := .stripe ev } now now hf]
    rw [mark_log s
      { provider := .stripe, event_type := ev.type_.toStr,
        event_id := ev.id, payload := .stripe ev } now true none now hf]
    rw [hty]
    rfl
  · intro hm pe envk envu sig body now s ev p hv hp hty hpay hst hnew hf
    unfold handle_square_webhook
    dsimp only
    rw [hv, if_pos rfl, hp]
    dsimp only
    rw [hnew, if_neg Bool.false_ne_true,
      square_dispatch_on_payment_updated hty,
      handle_payment_updated_skip_status hpay hst]
    dsimp only
    rw [mark_log s
      { provider := .square, event_type := ev.event_type,
        event_id := ev.event_id, payload := .square ev } now true none now hf]
    rfl
  · intro hm pe envk envu sig body now s ev hv hp hty1 hty2 hnew hf
    unfold handle_square_webhook
    dsimp only
    rw [hv, if_pos rfl, hp]
    dsimp only
    rw [hnew, if_neg Bool.false_ne_true, square_dispatch_other hty1 hty2]
    dsimp only
    rw [mark_log_twice s
      { provider := .square, event_type := ev.event_type,
        event_id := ev.event_id, payload := .square ev } now now hf]
    rw [mark_log s
      { provider := .square, event_type := ev.event_type,
        event_id := ev.event_id, payload := .square ev } now true none now hf]
    rfl

/-- C6 witness: a verified Stripe event of the unhandled type "ping" on
the empty store is logged, marked processed with no error, and answered
with a plain 200. -/
theorem c6_witness :
    handle_stripe_webhook (stripeConstVerifier demoPingEvent) none
        (some "sig") "body" 2 emptyStore =
      (.ok 200 false none,
       { emptyStore with webhook_events :=
          [{ id := 0, provider := "stripe", event_type := "ping",
             event_id := "evt_ping", payload := .stripe demoPingEvent,
             processed := true, processed_at := some 2,
             error_message := none, created_at := 2 }] }) :=
  c6_skipped_events_logged_processed_200.1
    (stripeConstVerifier demoPingEvent) none "sig" "body" 2 emptyStore
    demoPingEvent "ping" rfl rfl rfl
    (fun r hr => absurd hr (by simp [emptyStore]))

/-- After any run of the Stripe handler on a verified event, a
WebhookEvent row with that event id exists. -/
theorem handle_stripe_webhook_keeps_event
    {ce : String → String → String → Except String StripeEvent}
    {env : Option String} {sig body : String} {now : Nat} {s : Store}
    {ev : StripeEvent}
    (hce : ce body sig (env.getD "whsec_test_secret") = .ok ev) :
    is_event_processed
      (handle_stripe_webhook ce env (some sig) body now s).2 ev.id = true := by
  unfold handle_stripe_webhook
  dsimp only
  rw [hce]
  dsimp only
  cases hdup : is_event_processed s ev.id with
  | true =>
    rw [if_pos rfl]
    exact hdup
  | false =>
    rw [if_neg Bool.false_ne_true]
    split
    · next s2 heq =>
        dsimp only
        rw [is_event_processed_mark,
          stripe_dispatch_is_event_processed ev.id heq]
        exact is_event_processed_log s _ now
    · next e heq =>
        dsimp only
        rw [is_event_processed_mark]
        exact is_event_processed_log s _ now

/-- After any run of the Square handler on a verified, parsed event, a
WebhookEvent row with that event id exists. -/
theorem handle_square_webhook_keeps_event
    {hm : String → String → String}
    {pe : String → Except String SquareWebhookEvent}
    {envk envu : Option String} {sig body : String} {now : Nat} {s : Store}
    {ev : SquareWebhookEvent}
    (hv : verify_square_signature hm body sig
      (envk.getD "your_webhook_signature_key")
      (envu.getD "https://your-domain.com/api/webhooks/square") = true)
    (hp : pe body = .ok ev) :
    is_event_processed
      (handle_square_webhook hm pe envk envu (some sig) body now s).2
      ev.event_id = true := by
  unfold handle_square_webhook
  dsimp only
  rw [hv, if_pos rfl, hp]
  dsimp only
  cases hdup : is_event_processed s ev.event_id with
  | true =>
    rw [if_pos rfl]
    exact hdup
  | false =>
    rw [if_neg Bool.false_ne_true]
    split
    · next s2 heq =>
        dsimp only
        rw [is_event_processed_mark,
          square_dispatch_is_event_processed ev.event_id heq]
        exact is_event_processed_log s _ now
    · next e heq =>
        dsimp only
        rw [is_event_processed_mark]
        exact is_event_processed_log s _ now

/-- C3: a verified request whose event id already has a WebhookEvent row
short-circuits to 200 with the duplicate marker and leaves the store
untouched, and delivering the identical verified request a second time
(sequentially) always answers with the duplicate marker and changes
nothing: the stored effect of two deliveries equals that of one. -/
theorem c3_duplicate_short_circuit_idempotent :
    (∀ (ce : String → String → String → Except String StripeEvent)
       (env : Option String) (sig body : String) (now : Nat) (s : Store)
       (ev : StripeEvent),
       ce body sig (env.getD "whsec_test_secret") = .ok ev →
       (is_event_processed s ev.id = true →
         handle_stripe_webhook ce env (some sig) body now s =
           (.ok 200 true none, s)) ∧
       (∀ now2 : Nat,
         handle_stripe_webhook ce env (some sig) body now2
             (handle_stripe_webhook ce env (some sig) body now s).2 =
           (.ok 200 true none,
            (handle_stripe_webhook ce env (some sig) body now s).2))) ∧
    (∀ (hm : String → String → String)
       (pe : String → Except String SquareWebhookEvent)
       (envk envu : Option String) (sig body : String) (now : Nat)
       (s : Store) (ev : SquareWebhookEvent),
       verify_square_signature hm body sig
         (envk.getD "your_webhook_signature_key")
         (envu.getD "https://your-domain.com/api/webhooks/square") = true →
       pe body = .ok ev →
       (is_event_processed s ev.event_id = true →
         handle_square_webhook hm pe envk envu (some sig) body now s =
           (.ok 200 true none, s)) ∧
       (∀ now2 : Nat,
         handle_square_webhook hm pe envk envu (some sig) body now2
             (handle_square_webhook hm pe envk envu (some sig) body now s).2 =
           (.ok 200 true none,
            (handle_square_webhook hm pe envk envu (some sig) body now s).2))) := by
  constructor
  · intro ce env sig body now s ev hce
    have hdupgen : ∀ (now3 : Nat) (s3 : Store),
        is_event_processed s3 ev.id = true →
        handle_stripe_webhook ce env (some sig) body now3 s3 =
          (.ok 200 true none, s3) := by
      intro now3 s3 h
      unfold handle_stripe_webhook
      dsimp only
      rw [hce]
      dsimp only
      rw [h, if_pos rfl]
    exact ⟨hdupgen now s,
      fun now2 => hdupgen now2 _ (handle_stripe_webhook_keeps_event hce)⟩
  · intro hm pe envk envu sig body now s ev hv hp
    have hdupgen : ∀ (now3 : Nat) (s3 : Store),
        is_event_processed s3 ev.event_id = true →
        handle_square_webhook hm pe envk envu (some sig) body now3 s3 =
          (.ok 200 true none, s3) := by
      intro now3 s3 h
      unfold handle_square_webhook
      dsimp only
      rw [hv, if_pos rfl, hp]
      dsimp only
      rw [h, if_pos rfl]
    exact ⟨hdupgen now s,
      fun now2 => hdupgen now2 _ (handle_square_webhook_keeps_event hv hp)⟩

/-- C3 witness: delivering the same verified payment_intent.succeeded
request twice, starting from the empty store: the second delivery
answers 200 with the duplicate marker and leaves the state of the first
delivery unchanged. -/
theorem c3_witness :
    handle_stripe_webhook (stripeConstVerifier demoPIEvent) none
        (some "sig") "body" 1
        (handle_stripe_webhook (stripeConstVerifier demoPIEvent) none
          (some "sig") "body" 0 emptyStore).2 =
      (.ok 200 true none,
       (handle_stripe_webhook (stripeConstVerifier demoPIEvent) none
         (some "sig") "body" 0 emptyStore).2) :=
  ((c3_duplicate_short_circuit_idempotent.1 (stripeConstVerifier demoPIEvent)
      none "sig" "body" 0 emptyStore demoPIEvent rfl).2) 1
